import Mathlib

/-!
Shallow embedding of the collision-and-movement core of
`src/model_loading.cpp` (a small 3D driving demo with AABB collisions).

Modelling conventions:
* C++ `float` arithmetic is modelled exactly over `ℚ`; every constant of the
  source (`3.5f`, `0.04f`, ...) is carried over as the exact rational it
  denotes.  `glm::pi<float>()` is the IEEE-754 single-precision rounding of π,
  which is exactly `13176795 / 4194304`.
* The C library calls `cosf`/`sinf` (and `cos`/`sin` in `processInput`) are
  modelled as an abstract environment `TrigEnv` of rational-valued functions:
  the resolver logic is uniform in the values these functions return, so every
  theorem below is quantified over the environment.
* The render handle `Model*` in `building_t` is an opaque pointer never read
  by the collision code and is dropped from the embedding.
* The GLFW key queries of `processInput` become a record of booleans
  (`Input`), and the globals `model_trans_loc`, `rotation`,
  `moment_before_collision` become the record `CarState` threaded through
  `processInput`.
-/

/-- Type `glm::vec3`, restricted to the exact-rational model. -/
structure Vec3 where
  x : ℚ
  y : ℚ
  z : ℚ

/-- Componentwise product, as `glm` `vec3 * vec3`. -/
def vmul (a b : Vec3) : Vec3 := ⟨a.x * b.x, a.y * b.y, a.z * b.z⟩

/-- Componentwise sum, as `glm` `vec3 + vec3`. -/
def vadd (a b : Vec3) : Vec3 := ⟨a.x + b.x, a.y + b.y, a.z + b.z⟩

/-- Componentwise minimum, as `glm::min`. -/
def vmin (a b : Vec3) : Vec3 := ⟨min a.x b.x, min a.y b.y, min a.z b.z⟩

/-- Componentwise maximum, as `glm::max`. -/
def vmax (a b : Vec3) : Vec3 := ⟨max a.x b.x, max a.y b.y, max a.z b.z⟩

/-- Source `struct AABB`: min/max corners (the field names come from
the original code, they hold world-space corners after a transform). -/
structure AABB where
  minLocal : Vec3
  maxLocal : Vec3

/-- Source `BUILDING_T` without its opaque `Model*` render handle. -/
structure BUILDING_T where
  buildingPos : Vec3
  buildingScaleFactor : Vec3
  buildingRotation : ℚ

/-- Constant `CAR_SPEED` of the source: `#define CAR_SPEED 3.5f`. -/
def CAR_SPEED : ℚ := 3.5

/-- Constant `CAR_SPEED_BOOST_FACTOR`: `#define CAR_SPEED_BOOST_FACTOR 3.0f`. -/
def CAR_SPEED_BOOST_FACTOR : ℚ := 3.0

/-- Constant `ROTATION_SPEED`: `#define ROTATION_SPEED 0.01f`. -/
def ROTATION_SPEED : ℚ := 0.01

/-- Value of `glm::pi<float>()`: the single-precision float nearest π, exactly. -/
def piFloat : ℚ := 13176795 / 4194304

/-- Constant `kCarLocalAABB`: the car mesh's local-space box. -/
def kCarLocalAABB : AABB := ⟨⟨-0.9, 0, -1.9⟩, ⟨0.9, 1.5, 1.9⟩⟩

/-- Constant `kBuildingLocalAABB`: the building mesh's local-space box. -/
def kBuildingLocalAABB : AABB := ⟨⟨-10, 0, -8⟩, ⟨10, 10, 8⟩⟩

/-- Function `toWorldAABB_NonRotated`: scale each of the 8 corners componentwise,
take the componentwise min/max, then translate by `pos`. -/
def toWorldAABB_NonRotated (localBox : AABB) (pos scale : Vec3) : AABB :=
  let c0 := vmul localBox.minLocal scale
  let c1 := vmul ⟨localBox.minLocal.x, localBox.minLocal.y, localBox.maxLocal.z⟩ scale
  let c2 := vmul ⟨localBox.minLocal.x, localBox.maxLocal.y, localBox.minLocal.z⟩ scale
  let c3 := vmul ⟨localBox.minLocal.x, localBox.maxLocal.y, localBox.maxLocal.z⟩ scale
  let c4 := vmul ⟨localBox.maxLocal.x, localBox.minLocal.y, localBox.minLocal.z⟩ scale
  let c5 := vmul ⟨localBox.maxLocal.x, localBox.minLocal.y, localBox.maxLocal.z⟩ scale
  let c6 := vmul ⟨localBox.maxLocal.x, localBox.maxLocal.y, localBox.minLocal.z⟩ scale
  let c7 := vmul localBox.maxLocal scale
  let mn := vmin (vmin (vmin c0 c1) (vmin c2 c3)) (vmin (vmin c4 c5) (vmin c6 c7))
  let mx := vmax (vmax (vmax c0 c1) (vmax c2 c3)) (vmax (vmax c4 c5) (vmax c6 c7))
  ⟨vadd mn pos, vadd mx pos⟩

/-- Function `aabbOverlap`: separating-axis test on the three principal axes, with
strict comparisons, so touching boxes count as overlapping. -/
def aabbOverlap (a b : AABB) : Bool :=
  if a.maxLocal.x < b.minLocal.x ∨ a.minLocal.x > b.maxLocal.x then false
  else if a.maxLocal.y < b.minLocal.y ∨ a.minLocal.y > b.maxLocal.y then false
  else if a.maxLocal.z < b.minLocal.z ∨ a.minLocal.z > b.maxLocal.z then false
  else true

/-- The trigonometric environment standing for the C library's
`cosf`/`sinf`. -/
structure TrigEnv where
  cosf : ℚ → ℚ
  sinf : ℚ → ℚ

/-- Function `rotateY`: rotate a point around the Y axis by `yaw`. -/
def rotateY (E : TrigEnv) (p : Vec3) (yaw : ℚ) : Vec3 :=
  ⟨E.cosf yaw * p.x + E.sinf yaw * p.z, p.y, -(E.sinf yaw) * p.x + E.cosf yaw * p.z⟩

/-- Function `carWorldAABBAt`: rotate the 8 local corners of `kCarLocalAABB` around Y,
translate by `carPos`, take componentwise min/max (car scale is 1). -/
def carWorldAABBAt (E : TrigEnv) (carPos : Vec3) (carYaw : ℚ) : AABB :=
  let mn := kCarLocalAABB.minLocal
  let mx := kCarLocalAABB.maxLocal
  let r0 := vadd (rotateY E ⟨mn.x, mn.y, mn.z⟩ carYaw) carPos
  let r1 := vadd (rotateY E ⟨mn.x, mn.y, mx.z⟩ carYaw) carPos
  let r2 := vadd (rotateY E ⟨mn.x, mx.y, mn.z⟩ carYaw) carPos
  let r3 := vadd (rotateY E ⟨mn.x, mx.y, mx.z⟩ carYaw) carPos
  let r4 := vadd (rotateY E ⟨mx.x, mn.y, mn.z⟩ carYaw) carPos
  let r5 := vadd (rotateY E ⟨mx.x, mn.y, mx.z⟩ carYaw) carPos
  let r6 := vadd (rotateY E ⟨mx.x, mx.y, mn.z⟩ carYaw) carPos
  let r7 := vadd (rotateY E ⟨mx.x, mx.y, mx.z⟩ carYaw) carPos
  let outMin := vmin (vmin (vmin r0 r1) (vmin r2 r3)) (vmin (vmin r4 r5) (vmin r6 r7))
  let outMax := vmax (vmax (vmax r0 r1) (vmax r2 r3)) (vmax (vmax r4 r5) (vmax r6 r7))
  ⟨outMin, outMax⟩

/-- Function `wouldCollideAt`: does the car at `proposedCarPos` with yaw `proposedYaw`
overlap any building AABB?  The building's `buildingRotation` is never read
(the obstacle collision box is axis-aligned by design); the loop returns true
on the first overlapping pair, which `List.any` reproduces. -/
def wouldCollideAt (E : TrigEnv) (gBuildings : List BUILDING_T)
    (proposedCarPos : Vec3) (proposedYaw : ℚ) : Bool :=
  gBuildings.any fun b =>
    aabbOverlap (carWorldAABBAt E proposedCarPos proposedYaw)
      (toWorldAABB_NonRotated kBuildingLocalAABB b.buildingPos b.buildingScaleFactor)

/-- The `wrapPi` lambda of `processInput`: subtract 2π once if above π, then
add 2π once if (now) below -π — the second test sees the updated value, as in
the sequential C++ statements. -/
def wrapPi (a : ℚ) : ℚ :=
  let a1 := if a > piFloat then a - 2 * piFloat else a
  if a1 < -piFloat then a1 + 2 * piFloat else a1

/-- The per-frame key snapshot read by `processInput` from GLFW. -/
structure Input where
  keyA : Bool
  keyD : Bool
  keyW : Bool
  keyS : Bool
  keyShift : Bool

/-- The `speed` local of `processInput`: `CAR_SPEED`, boosted by
`CAR_SPEED_BOOST_FACTOR` when left-shift is held and `S` is not. -/
def effectiveSpeed (inp : Input) : ℚ :=
  if inp.keyShift && !inp.keyS then CAR_SPEED * CAR_SPEED_BOOST_FACTOR else CAR_SPEED

/-- The yaw proposal before wrapping: start at the current `rotation`, add
`ROTATION_SPEED` if `A` is held, subtract it if `D` is held. -/
def proposedYawRaw (inp : Input) (rot : ℚ) : ℚ :=
  let p1 := if inp.keyA then rot + ROTATION_SPEED else rot
  if inp.keyD then p1 - ROTATION_SPEED else p1

/-- The yaw proposal after the `wrapPi` clamp. -/
def proposedYawOf (inp : Input) (rot : ℚ) : ℚ := wrapPi (proposedYawRaw inp rot)

/-- The `rotated` local of `processInput`: set when either rotation key is
held. -/
def rotatedFlag (inp : Input) : Bool := inp.keyA || inp.keyD

/-- The rotation step of `processInput`: commit the proposed yaw only when a
rotation key is held and the proposal is collision-free at the current
position; otherwise keep the old yaw. -/
def stepRotation (E : TrigEnv) (gBuildings : List BUILDING_T) (pos : Vec3)
    (rot : ℚ) (inp : Input) : ℚ :=
  if rotatedFlag inp && !(wouldCollideAt E gBuildings pos (proposedYawOf inp rot))
  then proposedYawOf inp rot else rot

/-- The `fwd` local of `processInput`: +1 for `W`, -1 for `S`, summed. -/
def fwdIntent (inp : Input) : ℚ :=
  (if inp.keyW then (1 : ℚ) else 0) - (if inp.keyS then (1 : ℚ) else 0)

/-- The `proposedPos` local of `processInput`: when there is forward intent,
advance by `step = fwd * speed * deltaTime` along `(sin rot, 0, cos rot)`. -/
def proposedPosOf (E : TrigEnv) (inp : Input) (deltaTime : ℚ) (pos : Vec3)
    (rot : ℚ) : Vec3 :=
  if fwdIntent inp ≠ 0 then
    ⟨pos.x + fwdIntent inp * effectiveSpeed inp * deltaTime * E.sinf rot,
     pos.y,
     pos.z + fwdIntent inp * effectiveSpeed inp * deltaTime * E.cosf rot⟩
  else pos

/-- The mutable globals of the source that `processInput` reads and writes:
`model_trans_loc` (car position), `rotation` (car yaw) and
`moment_before_collision` (last safe position). -/
structure CarState where
  model_trans_loc : Vec3
  rotation : ℚ
  moment_before_collision : Vec3

/-- The `slideX` candidate: proposed x, current y and z. -/
def slideXOf (proposedPos cur : Vec3) : Vec3 := ⟨proposedPos.x, cur.y, cur.z⟩

/-- The `slideZ` candidate: current x and y, proposed z. -/
def slideZOf (proposedPos cur : Vec3) : Vec3 := ⟨cur.x, cur.y, proposedPos.z⟩

/-- The commit/slide/reject tail of `processInput`.  `rot` is the yaw
resolved by the rotation step, `cur` the current position, `moment` the last
safe position, `proposedPos` the translation proposal. -/
def commitOrSlide (E : TrigEnv) (gBuildings : List BUILDING_T) (rot : ℚ)
    (cur moment proposedPos : Vec3) : CarState :=
  if !(wouldCollideAt E gBuildings proposedPos rot) then
    ⟨proposedPos, rot, proposedPos⟩
  else
    let xFree := !(wouldCollideAt E gBuildings (slideXOf proposedPos cur) rot)
    let zFree := !(wouldCollideAt E gBuildings (slideZOf proposedPos cur) rot)
    if xFree && !zFree then
      ⟨⟨proposedPos.x, cur.y, cur.z⟩, rot, ⟨proposedPos.x, cur.y, cur.z⟩⟩
    else if !xFree && zFree then
      ⟨⟨cur.x, cur.y, proposedPos.z⟩, rot, ⟨cur.x, cur.y, proposedPos.z⟩⟩
    else
      ⟨moment, rot, moment⟩

/-- Function `processInput`, as the state transformer on `CarState`: resolve the
rotation first, then build the translation proposal with the resolved yaw and
run the commit/slide/reject policy. -/
def processInput (E : TrigEnv) (gBuildings : List BUILDING_T) (inp : Input)
    (deltaTime : ℚ) (st : CarState) : CarState :=
  let rot := stepRotation E gBuildings st.model_trans_loc st.rotation inp
  commitOrSlide E gBuildings rot st.model_trans_loc st.moment_before_collision
    (proposedPosOf E inp deltaTime st.model_trans_loc rot)

/-- The part of a building that the collision query actually reads: its
position and scale, never its cosmetic rotation. -/
def collisionFootprint (b : BUILDING_T) : Vec3 × Vec3 :=
  (b.buildingPos, b.buildingScaleFactor)

/-! ## Concrete scenarios for counterexamples and witnesses -/

/-- Trig environment whose values at the queried yaw are cos = 3/5,
sin = 4/5 (the exact point of the unit circle at yaw about 0.9273). -/
def trigDiag : TrigEnv := ⟨fun _ => 3/5, fun _ => 4/5⟩

/-- Trig environment whose values at the queried yaw are cos = 1, sin = 0
(yaw 0). -/
def trigAxis : TrigEnv := ⟨fun _ => 1, fun _ => 0⟩

/-- A small building at the diagonal corner of a forward step: blocks the
full move from the origin but neither axis-aligned slide. -/
def cornerBuilding : BUILDING_T := ⟨⟨9/2, 0, 7/2⟩, ⟨0.04, 0.04, 0.04⟩, 3⟩

/-- An unscaled building at the origin: its world box spans x in [-10,10],
y in [0,10], z in [-8,8] and swallows the car and every nearby candidate. -/
def bigBuilding : BUILDING_T := ⟨⟨0, 0, 0⟩, ⟨1, 1, 1⟩, 0⟩

/-- Car at the origin, yaw 93/100, last safe position at the origin. -/
def diagSt : CarState := ⟨⟨0, 0, 0⟩, 93/100, ⟨0, 0, 0⟩⟩

/-- Car at the origin, yaw 0, last safe position at the origin. -/
def originSt : CarState := ⟨⟨0, 0, 0⟩, 0, ⟨0, 0, 0⟩⟩

/-- Only the forward key held. -/
def forwardInput : Input := ⟨false, false, true, false, false⟩

/-- Only the rotate-left key held. -/
def leftInput : Input := ⟨true, false, false, false, false⟩

/-- A building used for the claim C7 witness, rotation 0. -/
def rotZeroBuilding : BUILDING_T := ⟨⟨1, 0, 2⟩, ⟨0.04, 0.05, 0.06⟩, 0⟩

/-- The same building with cosmetic rotation 3. -/
def rotThreeBuilding : BUILDING_T := ⟨⟨1, 0, 2⟩, ⟨0.04, 0.05, 0.06⟩, 3⟩

/-! ## Helper lemmas shared by the claim theorems -/

/-- Every branch of the commit/slide/reject policy writes the same value into
the position and the last-safe-position fields. -/
theorem commitOrSlide_moment (E : TrigEnv) (bs : List BUILDING_T) (rot : ℚ)
    (cur moment pp : Vec3) :
    (commitOrSlide E bs rot cur moment pp).model_trans_loc
      = (commitOrSlide E bs rot cur moment pp).moment_before_collision := by
  unfold commitOrSlide
  dsimp only
  split_ifs <;> rfl

/-- The commit/slide/reject policy never touches the yaw it is given. -/
theorem commitOrSlide_rotationEq (E : TrigEnv) (bs : List BUILDING_T) (rot : ℚ)
    (cur moment pp : Vec3) :
    (commitOrSlide E bs rot cur moment pp).rotation = rot := by
  unfold commitOrSlide
  dsimp only
  split_ifs <;> rfl

/-- The translation proposal keeps the current y coordinate. -/
theorem proposedPosOf_y (E : TrigEnv) (inp : Input) (dt : ℚ) (pos : Vec3) (rot : ℚ) :
    (proposedPosOf E inp dt pos rot).y = pos.y := by
  unfold proposedPosOf
  split <;> rfl

/-- The commit/slide/reject policy keeps the y coordinate when the proposal
and the last safe position agree with the current y. -/
theorem commitOrSlide_y (E : TrigEnv) (bs : List BUILDING_T) (rot : ℚ)
    (cur moment pp : Vec3) (hm : moment.y = cur.y) (hp : pp.y = cur.y) :
    (commitOrSlide E bs rot cur moment pp).model_trans_loc.y = cur.y := by
  unfold commitOrSlide
  dsimp only
  split_ifs <;> first | exact hp | rfl | exact hm

/-- A stationary proposal is either committed as-is or rejected back to the
last safe position; with the invariant it leaves the position unchanged. -/
theorem commitOrSlide_self (E : TrigEnv) (bs : List BUILDING_T) (rot : ℚ)
    (cur moment : Vec3) (h : moment = cur) :
    (commitOrSlide E bs rot cur moment cur).model_trans_loc = cur := by
  unfold commitOrSlide
  by_cases hc : wouldCollideAt E bs cur rot
  · have hx : slideXOf cur cur = cur := rfl
    have hz : slideZOf cur cur = cur := rfl
    simp [hc, hx, hz, h]
  · simp [hc]

/-- Outcome of the policy when the full move and both slides are blocked:
the reject branch restores the last safe position. -/
theorem commitOrSlide_bothBlocked (E : TrigEnv) (bs : List BUILDING_T) (rot : ℚ)
    (cur moment pp : Vec3)
    (hB : wouldCollideAt E bs pp rot = true)
    (hX : wouldCollideAt E bs (slideXOf pp cur) rot = true)
    (hZ : wouldCollideAt E bs (slideZOf pp cur) rot = true) :
    commitOrSlide E bs rot cur moment pp = ⟨moment, rot, moment⟩ := by
  unfold commitOrSlide
  dsimp only
  rw [hB, hX, hZ]
  simp

/-- Outcome of the policy when the full move is blocked but both slides are
free: the final else also takes the reject branch and restores the last safe
position. -/
theorem commitOrSlide_bothFree (E : TrigEnv) (bs : List BUILDING_T) (rot : ℚ)
    (cur moment pp : Vec3)
    (hB : wouldCollideAt E bs pp rot = true)
    (hX : wouldCollideAt E bs (slideXOf pp cur) rot = false)
    (hZ : wouldCollideAt E bs (slideZOf pp cur) rot = false) :
    commitOrSlide E bs rot cur moment pp = ⟨moment, rot, moment⟩ := by
  unfold commitOrSlide
  dsimp only
  rw [hB, hX, hZ]
  simp

/-! ## Claim theorems -/

/-- Claim C9: after every invocation of the movement resolver, the car
position equals the last safe position: every branch of the translation
policy leaves `model_trans_loc` and `moment_before_collision` equal (here
proved for every starting state, so in particular for states where they were
equal at initialization). -/
theorem processInput_pos_eq_lastSafe (E : TrigEnv) (gBuildings : List BUILDING_T)
    (inp : Input) (deltaTime : ℚ) (st : CarState) :
    (processInput E gBuildings inp deltaTime st).model_trans_loc
      = (processInput E gBuildings inp deltaTime st).moment_before_collision := by
  unfold processInput
  exact commitOrSlide_moment _ _ _ _ _ _

/-- Claim C10: the movement resolver never changes the position's y
component: for every input and elapsed time, starting from a state whose last
safe position has the current y (as every reachable state does), the y
coordinate after the call equals the y coordinate before it. -/
theorem processInput_preserves_y (E : TrigEnv) (gBuildings : List BUILDING_T)
    (inp : Input) (deltaTime : ℚ) (st : CarState)
    (h : st.moment_before_collision.y = st.model_trans_loc.y) :
    (processInput E gBuildings inp deltaTime st).model_trans_loc.y
      = st.model_trans_loc.y := by
  unfold processInput
  exact commitOrSlide_y _ _ _ _ _ _ h (proposedPosOf_y _ _ _ _ _)

/-- Claim C3: invoking the resolver with all input flags false leaves the
pose (position and yaw) unchanged, for every elapsed time and every state
satisfying the position-equals-last-safe invariant. -/
theorem noIntent_preserves_pose (E : TrigEnv) (gBuildings : List BUILDING_T)
    (deltaTime : ℚ) (st : CarState)
    (h : st.moment_before_collision = st.model_trans_loc) :
    (processInput E gBuildings ⟨false, false, false, false, false⟩ deltaTime st).model_trans_loc
        = st.model_trans_loc ∧
    (processInput E gBuildings ⟨false, false, false, false, false⟩ deltaTime st).rotation
        = st.rotation := by
  have hrot : stepRotation E gBuildings st.model_trans_loc st.rotation
      ⟨false, false, false, false, false⟩ = st.rotation := by
    simp [stepRotation, rotatedFlag]
  have hpp : proposedPosOf E ⟨false, false, false, false, false⟩ deltaTime
      st.model_trans_loc st.rotation = st.model_trans_loc := by
    simp [proposedPosOf, fwdIntent]
  unfold processInput
  dsimp only
  rw [hrot, hpp]
  exact ⟨commitOrSlide_self _ _ _ _ _ h, commitOrSlide_rotationEq _ _ _ _ _ _⟩

/-- Claim C5: when a rotation key is pressed and the proposed yaw would
collide at the current position, the rotation is rejected silently: the yaw
after the call is the yaw before it. -/
theorem blockedRotation_preserves_yaw (E : TrigEnv) (gBuildings : List BUILDING_T)
    (inp : Input) (deltaTime : ℚ) (st : CarState)
    (hr : rotatedFlag inp = true)
    (hc : wouldCollideAt E gBuildings st.model_trans_loc
        (proposedYawOf inp st.rotation) = true) :
    (processInput E gBuildings inp deltaTime st).rotation = st.rotation := by
  have h1 : stepRotation E gBuildings st.model_trans_loc st.rotation inp
      = st.rotation := by
    unfold stepRotation
    simp [hr, hc]
  unfold processInput
  dsimp only
  rw [h1]
  exact commitOrSlide_rotationEq _ _ _ _ _ _

/-- Claim C2: when the full proposed move is blocked and both slide
candidates collide as well, the resolver rejects the move: the position is
restored to the last safe position (so it equals `moment_before_collision`
after the call and, under the reachable-state invariant, is unaltered). -/
theorem fullBlock_restoresLastSafe (E : TrigEnv) (gBuildings : List BUILDING_T)
    (inp : Input) (deltaTime : ℚ) (st : CarState) (rot : ℚ) (pp : Vec3)
    (hrot : rot = stepRotation E gBuildings st.model_trans_loc st.rotation inp)
    (hpp : pp = proposedPosOf E inp deltaTime st.model_trans_loc rot)
    (h0 : st.moment_before_collision = st.model_trans_loc)
    (hB : wouldCollideAt E gBuildings pp rot = true)
    (hX : wouldCollideAt E gBuildings (slideXOf pp st.model_trans_loc) rot = true)
    (hZ : wouldCollideAt E gBuildings (slideZOf pp st.model_trans_loc) rot = true) :
    (processInput E gBuildings inp deltaTime st).model_trans_loc
        = st.model_trans_loc ∧
    (processInput E gBuildings inp deltaTime st).model_trans_loc
        = (processInput E gBuildings inp deltaTime st).moment_before_collision := by
  subst hpp
  subst hrot
  unfold processInput
  dsimp only
  rw [commitOrSlide_bothBlocked _ _ _ _ _ _ hB hX hZ]
  simp [h0]

/-- Claim C1 (amended): when the full proposed move is blocked but both slide
candidates are collision-free, the resolver does not slide: it takes the
reject branch and restores the last safe position. -/
theorem bothSlidesFree_restoresLastSafe (E : TrigEnv) (gBuildings : List BUILDING_T)
    (inp : Input) (deltaTime : ℚ) (st : CarState) (rot : ℚ) (pp : Vec3)
    (hrot : rot = stepRotation E gBuildings st.model_trans_loc st.rotation inp)
    (hpp : pp = proposedPosOf E inp deltaTime st.model_trans_loc rot)
    (hB : wouldCollideAt E gBuildings pp rot = true)
    (hXfree : wouldCollideAt E gBuildings (slideXOf pp st.model_trans_loc) rot = false)
    (hZfree : wouldCollideAt E gBuildings (slideZOf pp st.model_trans_loc) rot = false) :
    (processInput E gBuildings inp deltaTime st).model_trans_loc
      = st.moment_before_collision := by
  subst hpp
  subst hrot
  unfold processInput
  dsimp only
  rw [commitOrSlide_bothFree _ _ _ _ _ _ hB hXfree hZfree]

/-- Claim C4: boxes that touch on the x axis (`a.max.x = b.min.x`) while
their y and z intervals overlap are reported as overlapping by
`aabbOverlap` — inclusive bounds, zero-gap contact counts as collision. -/
theorem touching_boxes_overlap (a b : AABB)
    (hax : a.minLocal.x ≤ a.maxLocal.x) (hbx : b.minLocal.x ≤ b.maxLocal.x)
    (ht : a.maxLocal.x = b.minLocal.x)
    (hy1 : b.minLocal.y ≤ a.maxLocal.y) (hy2 : a.minLocal.y ≤ b.maxLocal.y)
    (hz1 : b.minLocal.z ≤ a.maxLocal.z) (hz2 : a.minLocal.z ≤ b.maxLocal.z) :
    aabbOverlap a b = true := by
  unfold aabbOverlap
  split_ifs with h1 h2 h3
  · rcases h1 with h | h <;> linarith
  · rcases h2 with h | h <;> linarith
  · rcases h3 with h | h <;> linarith
  · rfl

/-- Claim C8: the overlap test is symmetric in its two boxes. -/
theorem aabbOverlap_symm (a b : AABB) : aabbOverlap a b = aabbOverlap b a := by
  unfold aabbOverlap
  split_ifs <;> first | rfl | tauto

/-- Claim C6: the effective speed is `CAR_SPEED * CAR_SPEED_BOOST_FACTOR`
exactly when boost (left shift) is held and the backward key is not, and is
`CAR_SPEED` in every other case: boost never applies to reverse movement. -/
theorem effectiveSpeed_boost_iff (inp : Input) :
    (effectiveSpeed inp = CAR_SPEED * CAR_SPEED_BOOST_FACTOR ↔
      inp.keyShift = true ∧ inp.keyS = false) ∧
    (effectiveSpeed inp = CAR_SPEED ↔
      ¬(inp.keyShift = true ∧ inp.keyS = false)) := by
  obtain ⟨a, d, w, s, sh⟩ := inp
  cases sh <;> cases s <;>
    simp [effectiveSpeed, CAR_SPEED, CAR_SPEED_BOOST_FACTOR] <;> norm_num

/-- Claim C7: `wouldCollideAt` is independent of every obstacle's cosmetic
rotation: two obstacle lists that agree entrywise on position and scale (and
so may differ arbitrarily in `buildingRotation`) give the same answer at
every proposed position and yaw. -/
theorem wouldCollideAt_ignores_cosmeticRotation (E : TrigEnv) (pos : Vec3) (yaw : ℚ) :
    ∀ bs1 bs2 : List BUILDING_T,
      bs1.map collisionFootprint = bs2.map collisionFootprint →
      wouldCollideAt E bs1 pos yaw = wouldCollideAt E bs2 pos yaw := by
  intro bs1
  induction bs1 with
  | nil =>
    intro bs2 h
    cases bs2 with
    | nil => rfl
    | cons b2 t2 => simp at h
  | cons b t ih =>
    intro bs2 h
    cases bs2 with
    | nil => simp at h
    | cons b2 t2 =>
      simp only [List.map_cons, List.cons.injEq] at h
      obtain ⟨hhead, htail⟩ := h
      have hpos : b.buildingPos = b2.buildingPos := congrArg Prod.fst hhead
      have hscale : b.buildingScaleFactor = b2.buildingScaleFactor :=
        congrArg Prod.snd hhead
      have htl : wouldCollideAt E t pos yaw = wouldCollideAt E t2 pos yaw :=
        ih t2 htail
      simp only [wouldCollideAt, List.any_cons] at htl ⊢
      rw [hpos, hscale, htl]

/-- Claim C1, counterexample: from the origin at yaw 93/100 (cos 3/5,
sin 4/5) with the forward key held and elapsed time 10/7, the proposal is
(4,0,3); the corner building blocks the full move while both slides are
free, yet the resolver does NOT commit the X-slide: the resulting x is the
restored 0, not the proposed 4. -/
theorem slidePriority_counterexample :
    stepRotation trigDiag [cornerBuilding] diagSt.model_trans_loc diagSt.rotation
        forwardInput = 93/100 ∧
    proposedPosOf trigDiag forwardInput (10/7) diagSt.model_trans_loc (93/100)
        = ⟨4, 0, 3⟩ ∧
    wouldCollideAt trigDiag [cornerBuilding] ⟨4, 0, 3⟩ (93/100) = true ∧
    wouldCollideAt trigDiag [cornerBuilding]
        (slideXOf ⟨4, 0, 3⟩ diagSt.model_trans_loc) (93/100) = false ∧
    wouldCollideAt trigDiag [cornerBuilding]
        (slideZOf ⟨4, 0, 3⟩ diagSt.model_trans_loc) (93/100) = false ∧
    (processInput trigDiag [cornerBuilding] forwardInput (10/7) diagSt).model_trans_loc.x
        ≠ (4 : ℚ) := by
  have hrot : stepRotation trigDiag [cornerBuilding] diagSt.model_trans_loc
      diagSt.rotation forwardInput = 93/100 := by
    norm_num [stepRotation, rotatedFlag, forwardInput, diagSt]
  have hpp : proposedPosOf trigDiag forwardInput (10/7) diagSt.model_trans_loc (93/100)
      = ⟨4, 0, 3⟩ := by
    norm_num [proposedPosOf, fwdIntent, effectiveSpeed, CAR_SPEED,
      CAR_SPEED_BOOST_FACTOR, trigDiag, forwardInput, diagSt]
  have hB : wouldCollideAt trigDiag [cornerBuilding] ⟨4, 0, 3⟩ (93/100) = true := by
    norm_num [wouldCollideAt, carWorldAABBAt, rotateY, toWorldAABB_NonRotated,
      aabbOverlap, vmin, vmax, vmul, vadd, kCarLocalAABB, kBuildingLocalAABB,
      trigDiag, cornerBuilding, min_def, max_def]
  have hX : wouldCollideAt trigDiag [cornerBuilding]
      (slideXOf ⟨4, 0, 3⟩ diagSt.model_trans_loc) (93/100) = false := by
    norm_num [wouldCollideAt, carWorldAABBAt, rotateY, toWorldAABB_NonRotated,
      aabbOverlap, vmin, vmax, vmul, vadd, kCarLocalAABB, kBuildingLocalAABB,
      trigDiag, cornerBuilding, diagSt, slideXOf, min_def, max_def]
  have hZ : wouldCollideAt trigDiag [cornerBuilding]
      (slideZOf ⟨4, 0, 3⟩ diagSt.model_trans_loc) (93/100) = false := by
    norm_num [wouldCollideAt, carWorldAABBAt, rotateY, toWorldAABB_NonRotated,
      aabbOverlap, vmin, vmax, vmul, vadd, kCarLocalAABB, kBuildingLocalAABB,
      trigDiag, cornerBuilding, diagSt, slideZOf, min_def, max_def]
  refine ⟨hrot, hpp, hB, hX, hZ, ?_⟩
  unfold processInput
  dsimp only
  rw [hrot, hpp, commitOrSlide_bothFree _ _ _ _ _ _ hB hX hZ]
  norm_num [diagSt]

/-- Witness for claim C1's amended theorem at the corner-building scenario:
the hypotheses hold there and the resolver restores the last safe position. -/
theorem bothSlidesFree_restores_witness :
    wouldCollideAt trigDiag [cornerBuilding] ⟨4, 0, 3⟩ (93/100) = true ∧
    wouldCollideAt trigDiag [cornerBuilding]
        (slideXOf ⟨4, 0, 3⟩ diagSt.model_trans_loc) (93/100) = false ∧
    wouldCollideAt trigDiag [cornerBuilding]
        (slideZOf ⟨4, 0, 3⟩ diagSt.model_trans_loc) (93/100) = false ∧
    (processInput trigDiag [cornerBuilding] forwardInput (10/7) diagSt).model_trans_loc
        = diagSt.moment_before_collision := by
  have hrot : (93/100 : ℚ) = stepRotation trigDiag [cornerBuilding]
      diagSt.model_trans_loc diagSt.rotation forwardInput := by
    norm_num [stepRotation, rotatedFlag, forwardInput, diagSt]
  have hpp : (⟨4, 0, 3⟩ : Vec3) = proposedPosOf trigDiag forwardInput (10/7)
      diagSt.model_trans_loc (93/100) := by
    norm_num [proposedPosOf, fwdIntent, effectiveSpeed, CAR_SPEED,
      CAR_SPEED_BOOST_FACTOR, trigDiag, forwardInput, diagSt]
  have hB : wouldCollideAt trigDiag [cornerBuilding] ⟨4, 0, 3⟩ (93/100) = true := by
    norm_num [wouldCollideAt, carWorldAABBAt, rotateY, toWorldAABB_NonRotated,
      aabbOverlap, vmin, vmax, vmul, vadd, kCarLocalAABB, kBuildingLocalAABB,
      trigDiag, cornerBuilding, min_def, max_def]
  have hX : wouldCollideAt trigDiag [cornerBuilding]
      (slideXOf ⟨4, 0, 3⟩ diagSt.model_trans_loc) (93/100) = false := by
    norm_num [wouldCollideAt, carWorldAABBAt, rotateY, toWorldAABB_NonRotated,
      aabbOverlap, vmin, vmax, vmul, vadd, kCarLocalAABB, kBuildingLocalAABB,
      trigDiag, cornerBuilding, diagSt, slideXOf, min_def, max_def]
  have hZ : wouldCollideAt trigDiag [cornerBuilding]
      (slideZOf ⟨4, 0, 3⟩ diagSt.model_trans_loc) (93/100) = false := by
    norm_num [wouldCollideAt, carWorldAABBAt, rotateY, toWorldAABB_NonRotated,
      aabbOverlap, vmin, vmax, vmul, vadd, kCarLocalAABB, kBuildingLocalAABB,
      trigDiag, cornerBuilding, diagSt, slideZOf, min_def, max_def]
  exact ⟨hB, hX, hZ, bothSlidesFree_restoresLastSafe trigDiag [cornerBuilding]
    forwardInput (10/7) diagSt (93/100) ⟨4, 0, 3⟩ hrot hpp hB hX hZ⟩

/-- Witness for claim C2's theorem: the car starts inside the big building,
the forward proposal and both slides collide, and the position is restored
(here a no-op, as it equals the last safe position). -/
theorem fullBlock_restores_witness :
    originSt.moment_before_collision = originSt.model_trans_loc ∧
    wouldCollideAt trigAxis [bigBuilding] ⟨0, 0, 7/2⟩ 0 = true ∧
    wouldCollideAt trigAxis [bigBuilding]
        (slideXOf ⟨0, 0, 7/2⟩ originSt.model_trans_loc) 0 = true ∧
    wouldCollideAt trigAxis [bigBuilding]
        (slideZOf ⟨0, 0, 7/2⟩ originSt.model_trans_loc) 0 = true ∧
    (processInput trigAxis [bigBuilding] forwardInput 1 originSt).model_trans_loc
        = originSt.model_trans_loc := by
  have hrot : (0 : ℚ) = stepRotation trigAxis [bigBuilding]
      originSt.model_trans_loc originSt.rotation forwardInput := by
    norm_num [stepRotation, rotatedFlag, forwardInput, originSt]
  have hpp : (⟨0, 0, 7/2⟩ : Vec3) = proposedPosOf trigAxis forwardInput 1
      originSt.model_trans_loc 0 := by
    norm_num [proposedPosOf, fwdIntent, effectiveSpeed, CAR_SPEED,
      CAR_SPEED_BOOST_FACTOR, trigAxis, forwardInput, originSt]
  have hB : wouldCollideAt trigAxis [bigBuilding] ⟨0, 0, 7/2⟩ 0 = true := by
    norm_num [wouldCollideAt, carWorldAABBAt, rotateY, toWorldAABB_NonRotated,
      aabbOverlap, vmin, vmax, vmul, vadd, kCarLocalAABB, kBuildingLocalAABB,
      trigAxis, bigBuilding, min_def, max_def]
  have hX : wouldCollideAt trigAxis [bigBuilding]
      (slideXOf ⟨0, 0, 7/2⟩ originSt.model_trans_loc) 0 = true := by
    norm_num [wouldCollideAt, carWorldAABBAt, rotateY, toWorldAABB_NonRotated,
      aabbOverlap, vmin, vmax, vmul, vadd, kCarLocalAABB, kBuildingLocalAABB,
      trigAxis, bigBuilding, originSt, slideXOf, min_def, max_def]
  have hZ : wouldCollideAt trigAxis [bigBuilding]
      (slideZOf ⟨0, 0, 7/2⟩ originSt.model_trans_loc) 0 = true := by
    norm_num [wouldCollideAt, carWorldAABBAt, rotateY, toWorldAABB_NonRotated,
      aabbOverlap, vmin, vmax, vmul, vadd, kCarLocalAABB, kBuildingLocalAABB,
      trigAxis, bigBuilding, originSt, slideZOf, min_def, max_def]
  exact ⟨rfl, hB, hX, hZ, (fullBlock_restoresLastSafe trigAxis [bigBuilding]
    forwardInput 1 originSt 0 ⟨0, 0, 7/2⟩ hrot hpp rfl hB hX hZ).1⟩

/-- Witness for claim C3's theorem: with no buildings, at the origin, a
no-flags invocation at elapsed time 5 leaves position and yaw unchanged. -/
theorem noIntent_preserves_pose_witness :
    originSt.moment_before_collision = originSt.model_trans_loc ∧
    ((processInput trigAxis [] ⟨false, false, false, false, false⟩ 5 originSt).model_trans_loc
        = originSt.model_trans_loc ∧
     (processInput trigAxis [] ⟨false, false, false, false, false⟩ 5 originSt).rotation
        = originSt.rotation) :=
  ⟨rfl, noIntent_preserves_pose trigAxis [] 5 originSt rfl⟩

/-- Witness for claim C10's theorem: a forward move against the big building
keeps the y coordinate. -/
theorem processInput_preserves_y_witness :
    originSt.moment_before_collision.y = originSt.model_trans_loc.y ∧
    (processInput trigAxis [bigBuilding] forwardInput 1 originSt).model_trans_loc.y
        = originSt.model_trans_loc.y :=
  ⟨rfl, processInput_preserves_y trigAxis [bigBuilding] forwardInput 1 originSt rfl⟩

/-- Witness for claim C5's theorem: from inside the big building, the
rotate-left proposal collides and the yaw is kept. -/
theorem blockedRotation_preserves_yaw_witness :
    rotatedFlag leftInput = true ∧
    wouldCollideAt trigAxis [bigBuilding] originSt.model_trans_loc
        (proposedYawOf leftInput originSt.rotation) = true ∧
    (processInput trigAxis [bigBuilding] leftInput 1 originSt).rotation
        = originSt.rotation := by
  have hc : wouldCollideAt trigAxis [bigBuilding] originSt.model_trans_loc
      (proposedYawOf leftInput originSt.rotation) = true := by
    norm_num [wouldCollideAt, carWorldAABBAt, rotateY, toWorldAABB_NonRotated,
      aabbOverlap, vmin, vmax, vmul, vadd, kCarLocalAABB, kBuildingLocalAABB,
      trigAxis, bigBuilding, originSt, proposedYawOf, proposedYawRaw, wrapPi,
      piFloat, ROTATION_SPEED, leftInput, min_def, max_def]
  exact ⟨rfl, hc,
    blockedRotation_preserves_yaw trigAxis [bigBuilding] leftInput 1 originSt rfl hc⟩

/-- Witness for claim C4's theorem: the unit box touching its translate at
x = 1 overlaps it. -/
theorem touching_boxes_overlap_witness :
    (⟨⟨0, 0, 0⟩, ⟨1, 1, 1⟩⟩ : AABB).maxLocal.x
        = (⟨⟨1, 0, 0⟩, ⟨2, 1, 1⟩⟩ : AABB).minLocal.x ∧
    aabbOverlap ⟨⟨0, 0, 0⟩, ⟨1, 1, 1⟩⟩ ⟨⟨1, 0, 0⟩, ⟨2, 1, 1⟩⟩ = true := by
  refine ⟨rfl, touching_boxes_overlap _ _ ?_ ?_ ?_ ?_ ?_ ?_ ?_⟩ <;> norm_num

/-- Witness for claim C6's theorem: shift held without the backward key
yields the boosted speed. -/
theorem effectiveSpeed_boost_witness :
    effectiveSpeed ⟨false, false, true, false, true⟩
      = CAR_SPEED * CAR_SPEED_BOOST_FACTOR :=
  (effectiveSpeed_boost_iff ⟨false, false, true, false, true⟩).1.mpr ⟨rfl, rfl⟩

/-- Witness for claim C7's theorem: two single-building lists differing only
in cosmetic rotation give the same collision answer. -/
theorem wouldCollideAt_ignores_cosmeticRotation_witness :
    [rotZeroBuilding].map collisionFootprint
        = [rotThreeBuilding].map collisionFootprint ∧
    wouldCollideAt trigAxis [rotZeroBuilding] ⟨0, 0, 0⟩ 0
        = wouldCollideAt trigAxis [rotThreeBuilding] ⟨0, 0, 0⟩ 0 :=
  ⟨rfl, wouldCollideAt_ignores_cosmeticRotation trigAxis ⟨0, 0, 0⟩ 0
    [rotZeroBuilding] [rotThreeBuilding] rfl⟩
